import Mathlib

/-! # JACVS certificate verifier: embedding and verification

Shallow embedding of the JACVS verifier's field parsing
(the keyword loop of `process_certificate_ocr`, in its two source variants
`jacvs_ocr_enhanced.py` and `app.py`) and of the verification decision
procedure (`verify_certificate` in `app.py`), together with theorems about
them.

Python strings are modelled as Lean strings; the Python string helpers the
source uses (`strip`, `split`, the `in` operator) are given explicit
character-list models below, so that every definition evaluates inside the
kernel.
-/

/-- Characters removed by Python `str.strip()` (ASCII whitespace). -/
def isPySpace (c : Char) : Bool :=
  c == ' ' || c == '\t' || c == '\n' || c == '\r' || c == '\x0b' || c == '\x0c'

/-- Model of Python `s.strip()`: remove leading and trailing whitespace. -/
def pyStrip (s : String) : String :=
  ⟨((s.data.dropWhile isPySpace).reverse.dropWhile isPySpace).reverse⟩

/-- `startsWithL pat l` holds when `pat` is an initial segment of `l`. -/
def startsWithL : List Char → List Char → Bool
  | [], _ => true
  | _ :: _, [] => false
  | p :: ps, c :: cs => p == c && startsWithL ps cs

/-- `containsL pat l` holds when `pat` occurs contiguously inside `l`. -/
def containsL (pat : List Char) : List Char → Bool
  | [] => startsWithL pat []
  | c :: cs => startsWithL pat (c :: cs) || containsL pat cs

/-- Model of Python `pat in s` (contiguous-substring containment). -/
def inStr (pat s : String) : Bool := containsL pat.data s.data

/-- Model of Python `s.split(sep)` for a one-character separator `sep`,
on character lists.  `"".split(sep)` is `[""]`, i.e. `[[]]`. -/
def splitCh (sep : Char) : List Char → List (List Char)
  | [] => [[]]
  | c :: cs =>
    if c == sep then [] :: splitCh sep cs
    else
      match splitCh sep cs with
      | [] => [[c]]
      | g :: gs => (c :: g) :: gs

/-- Python `s.split(sep)` for a one-character separator, on strings. -/
def pySplitCh (s : String) (sep : Char) : List String :=
  (splitCh sep s.data).map fun l => ⟨l⟩

/-- The left-to-right non-overlapping scan underlying Python `split`:
`lastSegScan sep fuel l` is the suffix of `l` that follows the last
separator occurrence consumed by the scan — that is, `l.split(sep)[-1]`.
On a match the scan skips the whole separator (`c` plus `sep.length - 1`
further characters).  `fuel` bounds the recursion; `l.length` is always
enough because every step consumes at least one character. -/
def lastSegScan (sep : List Char) : Nat → List Char → List Char
  | _, [] => []
  | 0, l => l
  | fuel + 1, c :: cs =>
    if startsWithL sep (c :: cs) && !sep.isEmpty then
      lastSegScan sep fuel (List.drop (sep.length - 1) cs)
    else if containsL sep cs then
      lastSegScan sep fuel cs
    else
      c :: cs

/-- Model of Python `s.split(sep)[-1]` for a non-empty separator string:
the suffix after the last separator occurrence, or all of `s` when the
separator does not occur. -/
def pyLastSeg (s sep : String) : String :=
  ⟨lastSegScan sep.data (s.data.length + 1) s.data⟩

/-- The `extracted_data` dictionary: the three parsed certificate fields. -/
structure ExtractedFields where
  name : String
  roll_no : String
  cert_id : String
deriving DecidableEq, Repr

/-- The all-empty initial `extracted_data` dictionary. -/
def emptyFields : ExtractedFields := ⟨"", "", ""⟩

/-- One iteration of the field-extraction loop of `process_certificate_ocr`
in `jacvs_ocr_enhanced.py` (lines 22–30): trim the line, then the first
matching keyword rule — `"Name"`, else `"Roll"` or `"Roll No"`, else
`"Certificate ID"` or `"Cert ID"` — sets its field to
`line_clean.split(":")[-1].strip()`. -/
def processLineEnh (d : ExtractedFields) (line : String) : ExtractedFields :=
  let line_clean := pyStrip line
  if inStr "Name" line_clean then
    { d with name := pyStrip (pyLastSeg line_clean ":") }
  else if inStr "Roll" line_clean || inStr "Roll No" line_clean then
    { d with roll_no := pyStrip (pyLastSeg line_clean ":") }
  else if inStr "Certificate ID" line_clean || inStr "Cert ID" line_clean then
    { d with cert_id := pyStrip (pyLastSeg line_clean ":") }
  else d

/-- The `jacvs_ocr_enhanced.py` field-extraction loop over a list of lines,
starting from the all-empty dictionary (later writes overwrite earlier). -/
def parseLinesEnh (ls : List String) : ExtractedFields :=
  ls.foldl processLineEnh emptyFields

/-- Field parsing of `process_certificate_ocr` in `jacvs_ocr_enhanced.py`:
split the raw text on newlines and run the keyword loop. -/
def parseFieldsEnh (text : String) : ExtractedFields :=
  parseLinesEnh (pySplitCh text '\n')

/-- One iteration of the field-extraction loop of `process_certificate_ocr`
in `app.py` (lines 56–62): no per-line trim; keyword `"Name:"` sets `name`
to `line.split("Name:")[-1].strip()`, and `"Roll No"`, `"Certificate ID"`
behave analogously. -/
def processLineApp (d : ExtractedFields) (line : String) : ExtractedFields :=
  if inStr "Name:" line then
    { d with name := pyStrip (pyLastSeg line "Name:") }
  else if inStr "Roll No" line then
    { d with roll_no := pyStrip (pyLastSeg line "Roll No") }
  else if inStr "Certificate ID" line then
    { d with cert_id := pyStrip (pyLastSeg line "Certificate ID") }
  else d

/-- Field parsing of `process_certificate_ocr` in `app.py`. -/
def parseFieldsApp (text : String) : ExtractedFields :=
  (pySplitCh text '\n').foldl processLineApp emptyFields

/-- Outcome of the RecordStore lookup (`query_db` in `app.py`): either the
authoritative `(roll_no, cert_id)` pair for the name, or no row. -/
inductive RecordLookupResult where
  | Found (roll_no cert_id : String) : RecordLookupResult
  | NotFound : RecordLookupResult
deriving DecidableEq, Repr

/-- The two rows `init_db` in `app.py` inserts into the `certificates`
table: `(name, roll_no, cert_id)`. -/
def certificatesTable : List (String × String × String) :=
  [("John Doe", "RU12345", "RU/UG/2023/001"),
   ("Jane Smith", "RU54321", "RU/PG/2023/002")]

/-- `query_db` in `app.py`: select `(roll_no, cert_id)` by exact `name`
from the `certificates` table. -/
def query_db (name : String) : RecordLookupResult :=
  match certificatesTable.find? (fun r => r.1 == name) with
  | some r => RecordLookupResult.Found r.2.1 r.2.2
  | none => RecordLookupResult.NotFound

/-- The mutable report state of `verify_certificate` in `app.py`
(lines 93–96): anomaly list, status, confidence score, recommendation. -/
structure VState where
  anomalies : List String
  status : String
  confidence_score : Int
  recommendation : String
deriving DecidableEq, Repr

/-- The initial report state (`app.py` lines 93–96). -/
def initVState (ocr_confidence : Int) : VState :=
  { anomalies := [], status := "Valid", confidence_score := ocr_confidence,
    recommendation := "Proceed with verification." }

/-- The records branch of `verify_certificate` (`app.py` lines 98–109):
on a found row, a roll-number or certificate-id mismatch yields Caution
and clamps the score to 60; a missing row yields Forged and clamps to 30. -/
def matchStep (roll_no cert_id : String) (lookup : RecordLookupResult)
    (s : VState) : VState :=
  match lookup with
  | RecordLookupResult.Found db_roll_no db_cert_id =>
    if db_roll_no ≠ roll_no ∨ db_cert_id ≠ cert_id then
      { anomalies := s.anomalies ++ ["Mismatch in Roll No or Certificate ID"],
        status := "Caution",
        confidence_score := min s.confidence_score 60,
        recommendation := "Manual review recommended." }
    else s
  | RecordLookupResult.NotFound =>
    { anomalies := s.anomalies ++ ["Name not found in records"],
      status := "Forged",
      confidence_score := min s.confidence_score 30,
      recommendation := "Document appears invalid." }

/-- The low-confidence check of `verify_certificate` (`app.py`
lines 111–112): a score below 70 appends one more anomaly. -/
def lowConfStep (s : VState) : VState :=
  if s.confidence_score < 70 then
    { s with anomalies := s.anomalies ++ ["Low OCR confidence - blurry image?"] }
  else s

/-- The verification report assembled by `verify_certificate`
(`app.py` lines 114–121), restricted to the fields the decision procedure
computes (`document_hash` and `full_text` are caller-supplied pass-through). -/
structure VerificationReport where
  status : String
  confidence_score : Int
  recommendation : String
  anomalies : List String
  extracted_data : ExtractedFields
deriving DecidableEq, Repr

/-- The decision procedure of `verify_certificate` (`app.py` lines 88–121):
strip the extracted fields, branch on the already-resolved lookup, then run
the low-confidence check, and assemble the report.  The lookup is passed in
explicitly (in the source it is `query_db(name)` on the stripped name). -/
def verify_certificate (extracted_data : ExtractedFields) (ocr_confidence : Int)
    (lookup : RecordLookupResult) : VerificationReport :=
  let roll_no := pyStrip extracted_data.roll_no
  let cert_id := pyStrip extracted_data.cert_id
  let s := lowConfStep (matchStep roll_no cert_id lookup (initVState ocr_confidence))
  { status := s.status, confidence_score := s.confidence_score,
    recommendation := s.recommendation, anomalies := s.anomalies,
    extracted_data := extracted_data }

/-- Modelled from the spec: §4.1 predicts that a keyword line's value is
"the substring after the first colon (`:`) in the line, trimmed".  This is
the spec-side definition, to be compared against the source's
`split(":")[-1]` behaviour. -/
def afterFirstColonL : List Char → List Char
  | [] => []
  | c :: cs => if c == ':' then cs else afterFirstColonL cs

/-- Modelled from the spec: the value the specification predicts for a
keyword line — the substring after the first colon, trimmed. -/
def specFirstColonValue (line : String) : String :=
  pyStrip ⟨afterFirstColonL line.data⟩

/-! ## Helper lemmas -/

/-- A line whose trimmed form does not contain `"Name"` leaves the `name`
field unchanged. -/
theorem processLineEnh_name_eq (d : ExtractedFields) (line : String)
    (h : inStr "Name" (pyStrip line) = false) :
    (processLineEnh d line).name = d.name := by
  simp only [processLineEnh, h, Bool.false_eq_true, if_false]
  split
  · rfl
  · split <;> rfl

/-- A line whose trimmed form contains `"Name"` rewrites exactly the `name`
field, to `line_clean.split(":")[-1].strip()`. -/
theorem processLineEnh_name_match (d : ExtractedFields) (line : String)
    (h : inStr "Name" (pyStrip line) = true) :
    processLineEnh d line = { d with name := pyStrip (pyLastSeg (pyStrip line) ":") } := by
  simp only [processLineEnh, h, if_true]

/-- A `"Roll"` line that is not a `"Name"` line rewrites exactly `roll_no`. -/
theorem processLineEnh_roll_match (d : ExtractedFields) (line : String)
    (h1 : inStr "Name" (pyStrip line) = false)
    (h2 : (inStr "Roll" (pyStrip line) || inStr "Roll No" (pyStrip line)) = true) :
    processLineEnh d line = { d with roll_no := pyStrip (pyLastSeg (pyStrip line) ":") } := by
  simp only [processLineEnh, h1, h2, Bool.false_eq_true, if_false, if_true]

/-- A certificate-id line that matches no earlier rule rewrites exactly
`cert_id`. -/
theorem processLineEnh_cert_match (d : ExtractedFields) (line : String)
    (h1 : inStr "Name" (pyStrip line) = false)
    (h2 : (inStr "Roll" (pyStrip line) || inStr "Roll No" (pyStrip line)) = false)
    (h3 : (inStr "Certificate ID" (pyStrip line) || inStr "Cert ID" (pyStrip line)) = true) :
    processLineEnh d line = { d with cert_id := pyStrip (pyLastSeg (pyStrip line) ":") } := by
  simp only [processLineEnh, h1, h2, h3, Bool.false_eq_true, if_false, if_true]

/-- A line matching none of the three keyword rules is a no-op. -/
theorem processLineEnh_eq_self (d : ExtractedFields) (line : String)
    (h1 : inStr "Name" (pyStrip line) = false)
    (h2 : (inStr "Roll" (pyStrip line) || inStr "Roll No" (pyStrip line)) = false)
    (h3 : (inStr "Certificate ID" (pyStrip line) || inStr "Cert ID" (pyStrip line)) = false) :
    processLineEnh d line = d := by
  simp only [processLineEnh, h1, h2, h3, Bool.false_eq_true, if_false]

/-- Folding the `jacvs_ocr_enhanced.py` loop over lines none of which is a
`"Name"` line preserves the `name` field. -/
theorem foldl_enh_name_eq (ls : List String) :
    ∀ d : ExtractedFields, (∀ l ∈ ls, inStr "Name" (pyStrip l) = false) →
      (ls.foldl processLineEnh d).name = d.name := by
  induction ls with
  | nil => intro d _; rfl
  | cons a as ih =>
    intro d h
    rw [List.foldl_cons, ih _ (fun l hl => h l (List.mem_cons_of_mem a hl)),
      processLineEnh_name_eq d a (h a (List.mem_cons_self a as))]

/-- Folding the `jacvs_ocr_enhanced.py` loop over lines matching no keyword
rule is the identity. -/
theorem foldl_enh_eq_self (ls : List String) :
    ∀ d : ExtractedFields,
      (∀ l ∈ ls, inStr "Name" (pyStrip l) = false ∧
        (inStr "Roll" (pyStrip l) || inStr "Roll No" (pyStrip l)) = false ∧
        (inStr "Certificate ID" (pyStrip l) || inStr "Cert ID" (pyStrip l)) = false) →
      ls.foldl processLineEnh d = d := by
  induction ls with
  | nil => intro d _; rfl
  | cons a as ih =>
    intro d h
    obtain ⟨h1, h2, h3⟩ := h a (List.mem_cons_self a as)
    rw [List.foldl_cons, processLineEnh_eq_self d a h1 h2 h3,
      ih _ (fun l hl => h l (List.mem_cons_of_mem a hl))]

/-- A line matching none of the three `app.py` keyword rules is a no-op. -/
theorem processLineApp_eq_self (d : ExtractedFields) (line : String)
    (h1 : inStr "Name:" line = false) (h2 : inStr "Roll No" line = false)
    (h3 : inStr "Certificate ID" line = false) :
    processLineApp d line = d := by
  simp only [processLineApp, h1, h2, h3, Bool.false_eq_true, if_false]

/-- Folding the `app.py` loop over lines matching no keyword rule is the
identity. -/
theorem foldl_app_eq_self (ls : List String) :
    ∀ d : ExtractedFields,
      (∀ l ∈ ls, inStr "Name:" l = false ∧ inStr "Roll No" l = false ∧
        inStr "Certificate ID" l = false) →
      ls.foldl processLineApp d = d := by
  induction ls with
  | nil => intro d _; rfl
  | cons a as ih =>
    intro d h
    obtain ⟨h1, h2, h3⟩ := h a (List.mem_cons_self a as)
    rw [List.foldl_cons, processLineApp_eq_self d a h1 h2 h3,
      ih _ (fun l hl => h l (List.mem_cons_of_mem a hl))]

/-- Splitting on a character that does not occur yields the single segment. -/
theorem splitCh_eq_single (sep : Char) (l : List Char) (h : sep ∉ l) :
    splitCh sep l = [l] := by
  induction l with
  | nil => rfl
  | cons c cs ih =>
    have h1 : ¬(c == sep) = true := by
      simp only [beq_iff_eq]
      intro hce
      exact h (hce ▸ List.mem_cons_self c cs)
    have h2 : sep ∉ cs := fun hh => h (List.mem_cons_of_mem c hh)
    simp [splitCh, h1, ih h2]

/-- A string without newlines is its own single line. -/
theorem pySplitCh_single (line : String) (h : '\n' ∉ line.data) :
    pySplitCh line '\n' = [line] := by
  unfold pySplitCh
  rw [splitCh_eq_single _ _ h]
  rfl

/-- The low-confidence check never changes the status. -/
theorem lowConfStep_status (s : VState) : (lowConfStep s).status = s.status := by
  unfold lowConfStep; split <;> rfl

/-- The low-confidence check never changes the confidence score. -/
theorem lowConfStep_score (s : VState) :
    (lowConfStep s).confidence_score = s.confidence_score := by
  unfold lowConfStep; split <;> rfl

/-- The low-confidence check never changes the recommendation. -/
theorem lowConfStep_rec (s : VState) :
    (lowConfStep s).recommendation = s.recommendation := by
  unfold lowConfStep; split <;> rfl

/-- The report's status is the status after the records branch. -/
theorem verify_status (f : ExtractedFields) (ocr : Int) (lookup : RecordLookupResult) :
    (verify_certificate f ocr lookup).status
      = (matchStep (pyStrip f.roll_no) (pyStrip f.cert_id) lookup (initVState ocr)).status := by
  unfold verify_certificate
  exact lowConfStep_status _

/-- The report's confidence score is the score after the records branch. -/
theorem verify_score (f : ExtractedFields) (ocr : Int) (lookup : RecordLookupResult) :
    (verify_certificate f ocr lookup).confidence_score
      = (matchStep (pyStrip f.roll_no) (pyStrip f.cert_id) lookup
          (initVState ocr)).confidence_score := by
  unfold verify_certificate
  exact lowConfStep_score _

/-- The report's recommendation is the one after the records branch. -/
theorem verify_rec (f : ExtractedFields) (ocr : Int) (lookup : RecordLookupResult) :
    (verify_certificate f ocr lookup).recommendation
      = (matchStep (pyStrip f.roll_no) (pyStrip f.cert_id) lookup
          (initVState ocr)).recommendation := by
  unfold verify_certificate
  exact lowConfStep_rec _

/-- The report's anomalies: the records-branch anomalies, plus the
low-confidence anomaly exactly when the clamped score is below 70. -/
theorem verify_anomalies (f : ExtractedFields) (ocr : Int) (lookup : RecordLookupResult) :
    (verify_certificate f ocr lookup).anomalies
      = (let s2 := matchStep (pyStrip f.roll_no) (pyStrip f.cert_id) lookup (initVState ocr)
         if s2.confidence_score < 70 then
           s2.anomalies ++ ["Low OCR confidence - blurry image?"]
         else s2.anomalies) := by
  unfold verify_certificate lowConfStep
  dsimp only
  by_cases h : (matchStep (pyStrip f.roll_no) (pyStrip f.cert_id) lookup
      (initVState ocr)).confidence_score < 70
  · simp only [if_pos h]
  · simp only [if_neg h]

/-! ## Claim theorems -/

/-- C1: for a `Found{rollNo, certId}` lookup, if the (stripped) extracted
roll number differs from `rollNo` or the (stripped) extracted certificate
id differs from `certId`, `verify_certificate` reports status `Caution`,
appends the anomaly `"Mismatch in Roll No or Certificate ID"`, clamps the
confidence score to `min ocrConfidence 60`, and recommends
`"Manual review recommended."`. -/
theorem C1_found_mismatch_caution (f : ExtractedFields) (ocr : Int) (r c : String)
    (h : pyStrip f.roll_no ≠ r ∨ pyStrip f.cert_id ≠ c) :
    (verify_certificate f ocr (RecordLookupResult.Found r c)).status = "Caution" ∧
    "Mismatch in Roll No or Certificate ID"
      ∈ (verify_certificate f ocr (RecordLookupResult.Found r c)).anomalies ∧
    (verify_certificate f ocr (RecordLookupResult.Found r c)).confidence_score = min ocr 60 ∧
    (verify_certificate f ocr (RecordLookupResult.Found r c)).recommendation
      = "Manual review recommended." := by
  have h' : r ≠ pyStrip f.roll_no ∨ c ≠ pyStrip f.cert_id := h.imp Ne.symm Ne.symm
  have hm : matchStep (pyStrip f.roll_no) (pyStrip f.cert_id)
      (RecordLookupResult.Found r c) (initVState ocr)
      = { anomalies := ["Mismatch in Roll No or Certificate ID"],
          status := "Caution", confidence_score := min ocr 60,
          recommendation := "Manual review recommended." } := by
    simp only [matchStep, initVState]
    rw [if_pos h']
    simp
  have hlt : (min ocr 60 : Int) < 70 := lt_of_le_of_lt (min_le_right _ _) (by norm_num)
  refine ⟨?_, ?_, ?_, ?_⟩
  · rw [verify_status, hm]
  · rw [verify_anomalies]
    dsimp only
    simp [hm, hlt]
  · rw [verify_score, hm]
  · rw [verify_rec, hm]

/-- C1 witness: a concrete mismatching `Found` lookup is reported Caution. -/
theorem C1_witness :
    (verify_certificate ⟨"John Doe", "R2", "C1"⟩ 80
      (RecordLookupResult.Found "R1" "C1")).status = "Caution" :=
  (C1_found_mismatch_caution ⟨"John Doe", "R2", "C1"⟩ 80 "R1" "C1"
    (Or.inl (by decide))).1

/-- C2: for a `NotFound` lookup, `verify_certificate` reports status
`Forged`, appends the anomaly `"Name not found in records"`, clamps the
confidence score to `min ocrConfidence 30`, and recommends
`"Document appears invalid."`; in particular the empty parsed name is
looked up as not-found (`query_db "" = NotFound`). -/
theorem C2_notfound_forged :
    (∀ (f : ExtractedFields) (ocr : Int),
      (verify_certificate f ocr RecordLookupResult.NotFound).status = "Forged" ∧
      "Name not found in records"
        ∈ (verify_certificate f ocr RecordLookupResult.NotFound).anomalies ∧
      (verify_certificate f ocr RecordLookupResult.NotFound).confidence_score
        = min ocr 30 ∧
      (verify_certificate f ocr RecordLookupResult.NotFound).recommendation
        = "Document appears invalid.")
    ∧ query_db "" = RecordLookupResult.NotFound := by
  constructor
  · intro f ocr
    have hm : matchStep (pyStrip f.roll_no) (pyStrip f.cert_id)
        RecordLookupResult.NotFound (initVState ocr)
        = { anomalies := ["Name not found in records"], status := "Forged",
            confidence_score := min ocr 30,
            recommendation := "Document appears invalid." } := by
      simp [matchStep, initVState]
    have hlt : (min ocr 30 : Int) < 70 := lt_of_le_of_lt (min_le_right _ _) (by norm_num)
    refine ⟨?_, ?_, ?_, ?_⟩
    · rw [verify_status, hm]
    · rw [verify_anomalies]
      dsimp only
      simp [hm, hlt]
    · rw [verify_score, hm]
    · rw [verify_rec, hm]
  · rfl

/-- C3: the low-confidence check runs after the records branch's clamping:
whenever the score after the records branch is below 70, the report gets
the `"Low OCR confidence - blurry image?"` anomaly appended (whatever the
status), and the check changes neither status nor recommendation nor
confidence score. -/
theorem C3_lowconf_after_clamp (f : ExtractedFields) (ocr : Int)
    (lookup : RecordLookupResult)
    (h : (matchStep (pyStrip f.roll_no) (pyStrip f.cert_id) lookup
        (initVState ocr)).confidence_score < 70) :
    (verify_certificate f ocr lookup).anomalies
      = (matchStep (pyStrip f.roll_no) (pyStrip f.cert_id) lookup
          (initVState ocr)).anomalies ++ ["Low OCR confidence - blurry image?"] ∧
    (verify_certificate f ocr lookup).status
      = (matchStep (pyStrip f.roll_no) (pyStrip f.cert_id) lookup
          (initVState ocr)).status ∧
    (verify_certificate f ocr lookup).recommendation
      = (matchStep (pyStrip f.roll_no) (pyStrip f.cert_id) lookup
          (initVState ocr)).recommendation ∧
    (verify_certificate f ocr lookup).confidence_score
      = (matchStep (pyStrip f.roll_no) (pyStrip f.cert_id) lookup
          (initVState ocr)).confidence_score := by
  refine ⟨?_, verify_status f ocr lookup, verify_rec f ocr lookup,
    verify_score f ocr lookup⟩
  rw [verify_anomalies]
  dsimp only
  rw [if_pos h]

/-- C3 witness: a matching lookup at confidence 50 keeps status data and
gains exactly the low-confidence anomaly. -/
theorem C3_witness :
    (verify_certificate ⟨"", "", ""⟩ 50 (RecordLookupResult.Found "" "")).anomalies
      = ["Low OCR confidence - blurry image?"] :=
  ((C3_lowconf_after_clamp ⟨"", "", ""⟩ 50 (RecordLookupResult.Found "" "")
    (by decide)).1).trans (by decide)

/-- C4 fails as stated: after the OCR-confidence check has finished, a
fully matching record at confidence 50 yields a `Valid` report whose
anomaly list is non-empty. -/
theorem C4_counterexample :
    (verify_certificate ⟨"n", "R", "C"⟩ 50
      (RecordLookupResult.Found "R" "C")).status = "Valid"
    ∧ (verify_certificate ⟨"n", "R", "C"⟩ 50
      (RecordLookupResult.Found "R" "C")).anomalies ≠ [] := by
  decide

/-- C4 (amended): `status = Valid` iff the anomaly list is empty at the
point the name/ID-match check finishes — i.e. before the OCR-confidence
check, which can append its anomaly to a still-`Valid` report. -/
theorem C4_amended_valid_iff (f : ExtractedFields) (ocr : Int)
    (lookup : RecordLookupResult) :
    (verify_certificate f ocr lookup).status = "Valid"
      ↔ (matchStep (pyStrip f.roll_no) (pyStrip f.cert_id) lookup
          (initVState ocr)).anomalies = [] := by
  rw [verify_status]
  cases lookup with
  | NotFound => simp [matchStep, initVState]
  | Found r c =>
    by_cases h : r ≠ pyStrip f.roll_no ∨ c ≠ pyStrip f.cert_id
    · simp [matchStep, initVState, if_pos h]
    · simp [matchStep, initVState, if_neg h]

/-- C5: a `Found` lookup whose fields match exactly, at confidence below
70, yields a `Valid` report with the score passed through unchanged, the
default recommendation, and exactly the low-confidence anomaly — a Valid
report with a non-empty anomaly list. -/
theorem C5_valid_match_lowconf (f : ExtractedFields) (ocr : Int) (r c : String)
    (h1 : pyStrip f.roll_no = r) (h2 : pyStrip f.cert_id = c) (h3 : ocr < 70) :
    (verify_certificate f ocr (RecordLookupResult.Found r c)).status = "Valid" ∧
    (verify_certificate f ocr (RecordLookupResult.Found r c)).confidence_score = ocr ∧
    (verify_certificate f ocr (RecordLookupResult.Found r c)).recommendation
      = "Proceed with verification." ∧
    (verify_certificate f ocr (RecordLookupResult.Found r c)).anomalies
      = ["Low OCR confidence - blurry image?"] := by
  have hcond : ¬(r ≠ pyStrip f.roll_no ∨ c ≠ pyStrip f.cert_id) := by
    push_neg
    exact ⟨h1.symm, h2.symm⟩
  have hm : matchStep (pyStrip f.roll_no) (pyStrip f.cert_id)
      (RecordLookupResult.Found r c) (initVState ocr) = initVState ocr := by
    simp only [matchStep]
    rw [if_neg hcond]
  refine ⟨?_, ?_, ?_, ?_⟩
  · rw [verify_status, hm]
    rfl
  · rw [verify_score, hm]
    rfl
  · rw [verify_rec, hm]
    rfl
  · rw [verify_anomalies]
    dsimp only
    rw [hm]
    simp [initVState, h3]

/-- C5 witness: an exactly matching record at confidence 50 stays Valid
while carrying the low-confidence anomaly. -/
theorem C5_witness :
    (verify_certificate ⟨"x", "R1", "C1"⟩ 50
      (RecordLookupResult.Found "R1" "C1")).status = "Valid"
    ∧ (verify_certificate ⟨"x", "R1", "C1"⟩ 50
      (RecordLookupResult.Found "R1" "C1")).anomalies
      = ["Low OCR confidence - blurry image?"] := by
  have h := C5_valid_match_lowconf ⟨"x", "R1", "C1"⟩ 50 "R1" "C1"
    (by decide) (by decide) (by decide)
  exact ⟨h.1, h.2.2.2⟩

/-- Records branch, found row, mismatching fields: the Caution update. -/
theorem matchStep_found_mismatch (rn cid r c : String) (s : VState)
    (h : r ≠ rn ∨ c ≠ cid) :
    matchStep rn cid (RecordLookupResult.Found r c) s
      = { anomalies := s.anomalies ++ ["Mismatch in Roll No or Certificate ID"],
          status := "Caution", confidence_score := min s.confidence_score 60,
          recommendation := "Manual review recommended." } := by
  simp only [matchStep]
  rw [if_pos h]

/-- Records branch, found row, matching fields: a no-op. -/
theorem matchStep_found_match (rn cid r c : String) (s : VState)
    (h : ¬(r ≠ rn ∨ c ≠ cid)) :
    matchStep rn cid (RecordLookupResult.Found r c) s = s := by
  simp only [matchStep]
  rw [if_neg h]

/-- Records branch, no row: the Forged update. -/
theorem matchStep_notfound (rn cid : String) (s : VState) :
    matchStep rn cid RecordLookupResult.NotFound s
      = { anomalies := s.anomalies ++ ["Name not found in records"],
          status := "Forged", confidence_score := min s.confidence_score 30,
          recommendation := "Document appears invalid." } := by
  simp only [matchStep]

/-- C6 fails as stated: on the line `"Name: Alice: Bob"` — which contains
`"Name"` and two colons — the parser sets `name` to `"Bob"`, the substring
after the last colon, not to the substring after the first colon,
`"Alice: Bob"`, that the specification predicts. -/
theorem C6_counterexample :
    (parseFieldsEnh "Name: Alice: Bob").name = "Bob"
    ∧ specFirstColonValue "Name: Alice: Bob" = "Alice: Bob"
    ∧ (parseFieldsEnh "Name: Alice: Bob").name
      ≠ specFirstColonValue "Name: Alice: Bob" := by
  decide

/-- C6 (amended): for every single-line raw text whose trimmed line
contains the literal substring `"Name"`, the parser sets `name` to the
substring after the **last** colon of the trimmed line, trimmed — so on a
line with two or more colons the value begins after the last colon, not
the first. -/
theorem C6_amended_name_last_colon (line : String)
    (h1 : '\n' ∉ line.data) (h2 : inStr "Name" (pyStrip line) = true) :
    (parseFieldsEnh line).name = pyStrip (pyLastSeg (pyStrip line) ":") := by
  unfold parseFieldsEnh parseLinesEnh
  rw [pySplitCh_single line h1, List.foldl_cons, List.foldl_nil,
    processLineEnh_name_match emptyFields line h2]

/-- C6 witness: the amended rule evaluated on the two-colon line. -/
theorem C6_witness :
    (parseFieldsEnh "Name: Alice: Bob").name
      = pyStrip (pyLastSeg (pyStrip "Name: Alice: Bob") ":") :=
  C6_amended_name_last_colon "Name: Alice: Bob" (by decide) (by decide)

/-- C7: the keyword rules apply per line with precedence Name, then Roll,
then Certificate ID, each matching line rewriting exactly one field, and
later matching lines overwrite earlier ones for the same field: in a lines
list containing two `"Name"`-matching lines (no `"Name"` match after the
first of them but the second), the retained `name` is the second line's
value. -/
theorem C7_precedence_last_write :
    (∀ (d : ExtractedFields) (line : String),
      inStr "Name" (pyStrip line) = true →
      processLineEnh d line
        = { d with name := pyStrip (pyLastSeg (pyStrip line) ":") })
    ∧ (∀ (d : ExtractedFields) (line : String),
      inStr "Name" (pyStrip line) = false →
      (inStr "Roll" (pyStrip line) || inStr "Roll No" (pyStrip line)) = true →
      processLineEnh d line
        = { d with roll_no := pyStrip (pyLastSeg (pyStrip line) ":") })
    ∧ (∀ (d : ExtractedFields) (line : String),
      inStr "Name" (pyStrip line) = false →
      (inStr "Roll" (pyStrip line) || inStr "Roll No" (pyStrip line)) = false →
      (inStr "Certificate ID" (pyStrip line) || inStr "Cert ID" (pyStrip line)) = true →
      processLineEnh d line
        = { d with cert_id := pyStrip (pyLastSeg (pyStrip line) ":") })
    ∧ (∀ (pre mid : List String) (l1 l2 : String),
      inStr "Name" (pyStrip l1) = true → inStr "Name" (pyStrip l2) = true →
      (∀ l ∈ mid, inStr "Name" (pyStrip l) = false) →
      (parseLinesEnh (pre ++ l1 :: (mid ++ [l2]))).name
        = pyStrip (pyLastSeg (pyStrip l2) ":")) := by
  refine ⟨processLineEnh_name_match, processLineEnh_roll_match,
    processLineEnh_cert_match, ?_⟩
  intro pre mid l1 l2 h1 h2 hmid
  unfold parseLinesEnh
  rw [List.foldl_append, List.foldl_cons, List.foldl_append, List.foldl_cons,
    List.foldl_nil, processLineEnh_name_match _ l2 h2]

/-- C8: both parser variants are total Lean functions, and for every raw
text none of whose lines matches any keyword rule of the respective
variant, the parse keeps all three fields empty. -/
theorem C8_no_keyword_all_empty :
    (∀ text : String,
      (∀ l ∈ pySplitCh text '\n',
        inStr "Name" (pyStrip l) = false ∧
        (inStr "Roll" (pyStrip l) || inStr "Roll No" (pyStrip l)) = false ∧
        (inStr "Certificate ID" (pyStrip l) || inStr "Cert ID" (pyStrip l)) = false) →
      parseFieldsEnh text = emptyFields)
    ∧ (∀ text : String,
      (∀ l ∈ pySplitCh text '\n',
        inStr "Name:" l = false ∧ inStr "Roll No" l = false ∧
        inStr "Certificate ID" l = false) →
      parseFieldsApp text = emptyFields) := by
  constructor
  · intro text h
    unfold parseFieldsEnh parseLinesEnh
    exact foldl_enh_eq_self _ _ h
  · intro text h
    unfold parseFieldsApp
    exact foldl_app_eq_self _ _ h

/-- C9: a Caution report's score is already clamped to at most 60 and a
Forged report's to at most 30 — both below the 70 threshold — so the
low-confidence anomaly always fires too: every non-Valid report carries
exactly the two anomalies, the records-branch anomaly followed by the
low-confidence one. -/
theorem C9_nonvalid_two_anomalies (f : ExtractedFields) (ocr : Int)
    (lookup : RecordLookupResult)
    (h : (verify_certificate f ocr lookup).status = "Caution"
      ∨ (verify_certificate f ocr lookup).status = "Forged") :
    (verify_certificate f ocr lookup).confidence_score < 70 ∧
    ((verify_certificate f ocr lookup).status = "Caution" →
      (verify_certificate f ocr lookup).confidence_score ≤ 60 ∧
      (verify_certificate f ocr lookup).anomalies
        = ["Mismatch in Roll No or Certificate ID",
           "Low OCR confidence - blurry image?"]) ∧
    ((verify_certificate f ocr lookup).status = "Forged" →
      (verify_certificate f ocr lookup).confidence_score ≤ 30 ∧
      (verify_certificate f ocr lookup).anomalies
        = ["Name not found in records", "Low OCR confidence - blurry image?"]) ∧
    (verify_certificate f ocr lookup).anomalies.length = 2 := by
  cases lookup with
  | Found r c =>
    by_cases hc : r ≠ pyStrip f.roll_no ∨ c ≠ pyStrip f.cert_id
    · have hm : matchStep (pyStrip f.roll_no) (pyStrip f.cert_id)
          (RecordLookupResult.Found r c) (initVState ocr)
          = { anomalies := ["Mismatch in Roll No or Certificate ID"],
              status := "Caution", confidence_score := min ocr 60,
              recommendation := "Manual review recommended." } := by
        rw [matchStep_found_mismatch _ _ _ _ _ hc]
        simp [initVState]
      have hlt : (min ocr 60 : Int) < 70 :=
        lt_of_le_of_lt (min_le_right _ _) (by norm_num)
      have hst : (verify_certificate f ocr (RecordLookupResult.Found r c)).status
          = "Caution" := by
        rw [verify_status, hm]
      have hsc : (verify_certificate f ocr
          (RecordLookupResult.Found r c)).confidence_score = min ocr 60 := by
        rw [verify_score, hm]
      have hano : (verify_certificate f ocr (RecordLookupResult.Found r c)).anomalies
          = ["Mismatch in Roll No or Certificate ID",
             "Low OCR confidence - blurry image?"] := by
        rw [verify_anomalies]
        dsimp only
        rw [hm]
        simp [hlt]
      refine ⟨by rw [hsc]; exact hlt, fun _ => ⟨?_, hano⟩, fun hF => ?_, by rw [hano]; rfl⟩
      · rw [hsc]
        exact min_le_right _ _
      · rw [hst] at hF
        exact absurd hF (by decide)
    · have hm := matchStep_found_match (pyStrip f.roll_no) (pyStrip f.cert_id)
        r c (initVState ocr) hc
      have hst : (verify_certificate f ocr (RecordLookupResult.Found r c)).status
          = "Valid" := by
        rw [verify_status, hm]
        rfl
      rcases h with h | h <;> rw [hst] at h <;> exact absurd h (by decide)
  | NotFound =>
    have hm : matchStep (pyStrip f.roll_no) (pyStrip f.cert_id)
        RecordLookupResult.NotFound (initVState ocr)
        = { anomalies := ["Name not found in records"], status := "Forged",
            confidence_score := min ocr 30,
            recommendation := "Document appears invalid." } := by
      rw [matchStep_notfound]
      simp [initVState]
    have hlt : (min ocr 30 : Int) < 70 :=
      lt_of_le_of_lt (min_le_right _ _) (by norm_num)
    have hst : (verify_certificate f ocr RecordLookupResult.NotFound).status
        = "Forged" := by
      rw [verify_status, hm]
    have hsc : (verify_certificate f ocr
        RecordLookupResult.NotFound).confidence_score = min ocr 30 := by
      rw [verify_score, hm]
    have hano : (verify_certificate f ocr RecordLookupResult.NotFound).anomalies
        = ["Name not found in records", "Low OCR confidence - blurry image?"] := by
      rw [verify_anomalies]
      dsimp only
      rw [hm]
      simp [hlt]
    refine ⟨by rw [hsc]; exact hlt, fun hC => ?_, fun _ => ⟨?_, hano⟩, by rw [hano]; rfl⟩
    · rw [hst] at hC
      exact absurd hC (by decide)
    · rw [hsc]
      exact min_le_right _ _

/-- C9 witness: a `NotFound` lookup at confidence 80 yields exactly the
two anomalies. -/
theorem C9_witness :
    (verify_certificate ⟨"", "", ""⟩ 80 RecordLookupResult.NotFound).anomalies
      = ["Name not found in records", "Low OCR confidence - blurry image?"] :=
  ((C9_nonvalid_two_anomalies ⟨"", "", ""⟩ 80 RecordLookupResult.NotFound
    (Or.inr (by decide))).2.2.1 (by decide)).2

/-- C10: the decision procedure never increases the confidence score — the
reported score is at most the supplied OCR confidence — and a Valid report
passes the supplied score through unchanged. -/
theorem C10_score_never_increases (f : ExtractedFields) (ocr : Int)
    (lookup : RecordLookupResult) :
    (verify_certificate f ocr lookup).confidence_score ≤ ocr ∧
    ((verify_certificate f ocr lookup).status = "Valid" →
      (verify_certificate f ocr lookup).confidence_score = ocr) := by
  cases lookup with
  | Found r c =>
    by_cases hc : r ≠ pyStrip f.roll_no ∨ c ≠ pyStrip f.cert_id
    · have hm := matchStep_found_mismatch (pyStrip f.roll_no) (pyStrip f.cert_id)
        r c (initVState ocr) hc
      constructor
      · rw [verify_score, hm]
        exact min_le_left ocr 60
      · intro hv
        rw [verify_status, hm] at hv
        simp at hv
    · have hm := matchStep_found_match (pyStrip f.roll_no) (pyStrip f.cert_id)
        r c (initVState ocr) hc
      constructor
      · rw [verify_score, hm]
        exact le_refl ocr
      · intro _
        rw [verify_score, hm]
        rfl
  | NotFound =>
    have hm := matchStep_notfound (pyStrip f.roll_no) (pyStrip f.cert_id)
      (initVState ocr)
    constructor
    · rw [verify_score, hm]
      exact min_le_left ocr 30
    · intro hv
      rw [verify_status, hm] at hv
      simp at hv
